import Mathlib

/-!
Verification development for the repository `practice_deep_learning`.

The repository holds two artifacts:

* `new_manual_update.sh`, a bash script that captures `date` and `pwd` into
  the shell variables `temp_date` and `temp_path` and then runs eight
  `cd $temp_path && /usr/bin/git ...` lines;
* `linear-regression-gluon.ipynb`, a tutorial notebook that trains a linear
  regression model through the mxnet/gluon API.

The first part of this file embeds the shell script: its statement list is
transcribed from the source, and a small sequential semantics records the
trace of external program invocations, the shell environment and the working
directory.  The second part embeds the notebook: its code cells are
transcribed into a small Python statement AST, over which syntactic
collectors (loops, API calls, literal configuration values) are defined, and
the notebook's `load_array` helper is also given directly as a Lean function.
-/

/-! ## Shell script embedding -/

/-- A word of a shell command: a literal, a variable expansion `$n`, or a
quoted word made of a literal followed by a variable expansion (as in
`"code on $temp_date"`). -/
inductive Word
  | lit (s : String)
  | var (n : String)
  | cat (s : String) (n : String)
deriving DecidableEq, Repr

/-- A simple command: a program word and its argument words. -/
structure SimpleCmd where
  prog : Word
  args : List Word
deriving DecidableEq, Repr

/-- One statement (line) of the script: either a variable assignment from a
command substitution `name=$(cmd)`, or an and-chain `first && second`. -/
inductive ShStmt
  | assignSub (n : String) (cmd : SimpleCmd)
  | andThen (first second : SimpleCmd)
deriving DecidableEq, Repr

/-- Whether a statement is a variable assignment. -/
def ShStmt.isAssign : ShStmt → Bool
  | .assignSub _ _ => true
  | .andThen _ _ => false

/-- The path of the version-control binary invoked by the script. -/
def gitPath : String := "/usr/bin/git"

/-- A git line of the script: `cd $temp_path && /usr/bin/git <args>`. -/
def gitLine (args : List Word) : ShStmt :=
  .andThen ⟨.lit "cd", [.var "temp_path"]⟩ ⟨.lit gitPath, args⟩

/-- The statement list of `new_manual_update.sh`, transcribed line by line
(comment lines omitted). -/
def new_manual_update : List ShStmt :=
  [ .assignSub "temp_date" ⟨.lit "date", []⟩
  , .assignSub "temp_path" ⟨.lit "pwd", []⟩
  , gitLine [.lit "branch", .lit "tmp"]
  , gitLine [.lit "checkout", .lit "tmp"]
  , gitLine [.lit "add", .lit ".", .lit "--all"]
  , gitLine [.lit "commit", .lit "-m", .cat "code on " "temp_date"]
  , gitLine [.lit "checkout", .lit "master"]
  , gitLine [.lit "merge", .lit "tmp"]
  , gitLine [.lit "push", .lit "origin", .lit "master"]
  , gitLine [.lit "branch", .lit "-d", .lit "tmp"]
  ]

/-- The host behaviour the script runs against: the output of `date` as a
function of the step at which it is run, the shell's starting directory
(which is what `pwd` reports), the set of directories that exist (which is
what `cd` checks), and an oracle giving the exit status of each git
invocation in order. -/
structure World where
  dateAt : Nat → String
  initCwd : String
  dirs : List String
  gitOk : Nat → Bool

/-- A recorded invocation of an external program. -/
structure Invocation where
  prog : String
  args : List String
  cwd : String
deriving DecidableEq, Repr

/-- The shell state: the variable environment, the current working
directory, the index of the statement being executed (used as the clock for
`date`), the number of git invocations so far, and the trace of external
program invocations. -/
structure ShState where
  env : String → String
  cwd : String
  step : Nat
  gitCount : Nat
  trace : List Invocation

/-- Expand a word in the given environment (an unset variable expands to the
empty string, as in bash). -/
def resolveWord (env : String → String) : Word → String
  | .lit s => s
  | .var n => env n
  | .cat s n => s ++ env n

/-- Run a simple command for effect, returning the new state and the exit
status.  `cd` is a shell builtin: it records no external invocation and
succeeds exactly when the target directory exists.  Any other program is an
external invocation, recorded in the trace with the directory it runs in;
only git invocations consult the exit oracle, since nothing else in the
script can fail in the model. -/
def runCmd (w : World) (st : ShState) (c : SimpleCmd) : ShState × Bool :=
  let prog := resolveWord st.env c.prog
  let args := c.args.map (resolveWord st.env)
  if prog = "cd" then
    match args with
    | [d] => if d ∈ w.dirs then ({ st with cwd := d }, true) else (st, false)
    | _ => (st, false)
  else
    ({ st with
        trace := st.trace ++ [⟨prog, args, st.cwd⟩],
        gitCount := if prog = gitPath then st.gitCount + 1 else st.gitCount },
     if prog = gitPath then w.gitOk st.gitCount else true)

/-- Run a command substitution `$(cmd)`, returning the new state and the
captured output.  `pwd` is a bash builtin reporting the current directory;
`date` is an external program whose output is the host's timestamp at the
current step.  No other substitution occurs in the script. -/
def runSubst (w : World) (st : ShState) (c : SimpleCmd) : ShState × String :=
  let prog := resolveWord st.env c.prog
  if prog = "pwd" then (st, st.cwd)
  else if prog = "date" then
    ({ st with trace := st.trace ++ [⟨"date", [], st.cwd⟩] }, w.dateAt st.step)
  else (st, "")

/-- Run one statement.  An assignment stores the substitution's output in
the environment.  An and-chain runs its first command and runs the second
exactly when the first succeeded; the chain's own exit status is not
consulted by anything (bash runs the next line regardless). -/
def runStmt (w : World) (st : ShState) : ShStmt → ShState
  | .assignSub n c =>
      let p := runSubst w st c
      { p.1 with env := fun s => if s = n then p.2 else p.1.env s }
  | .andThen c1 c2 =>
      let p := runCmd w st c1
      if p.2 then (runCmd w p.1 c2).1 else p.1

/-- Run a statement list in order, one statement per clock step. -/
def runStmts (w : World) : ShState → List ShStmt → ShState
  | st, [] => st
  | st, s :: rest => runStmts w { runStmt w st s with step := st.step + 1 } rest

/-- The initial shell state. -/
def initState (w : World) : ShState :=
  { env := fun _ => "", cwd := w.initCwd, step := 0, gitCount := 0, trace := [] }

/-- Run the whole script against a world. -/
def runScript (w : World) : ShState :=
  runStmts w (initState w) new_manual_update

/-- The git invocations of a run, in order. -/
def gitInvocations (w : World) : List Invocation :=
  (runScript w).trace.filter (fun i => i.prog = gitPath)

/-- The programs invoked externally during a run, in order. -/
def invokedPrograms (w : World) : List String :=
  (runScript w).trace.map (fun i => i.prog)

/-- The messages of the `commit -m` invocations of a run. -/
def commitMessages (w : World) : List String :=
  (runScript w).trace.filterMap fun i =>
    match i.args with
    | ["commit", "-m", m] => if i.prog = gitPath then some m else none
    | _ => none

/-- The argument lists of the eight git subcommands the script issues, given
the captured timestamp: branch create, checkout of the new branch, add,
commit with a timestamp-derived message, checkout of master, merge, push,
branch delete. -/
def expectedGitArgs (d : String) : List (List String) :=
  [ ["branch", "tmp"]
  , ["checkout", "tmp"]
  , ["add", ".", "--all"]
  , ["commit", "-m", "code on " ++ d]
  , ["checkout", "master"]
  , ["merge", "tmp"]
  , ["push", "origin", "master"]
  , ["branch", "-d", "tmp"]
  ]

/-- The full external invocation trace of a run from a starting directory
that exists: one `date` call at step 0, then the eight git subcommands, all
run in the starting directory. -/
def expectedTrace (w : World) : List Invocation :=
  ⟨"date", [], w.initCwd⟩ ::
    (expectedGitArgs (w.dateAt 0)).map fun a => ⟨gitPath, a, w.initCwd⟩

/-- A concrete world used to witness the theorems below: the start directory
exists and every git command fails. -/
def sampleWorld : World :=
  { dateAt := fun _ => "Sun Oct 12 10:00:00 UTC 2025"
  , initCwd := "/repo"
  , dirs := ["/repo"]
  , gitOk := fun _ => false }

/-! ## Notebook embedding

A small Python AST into which the code cells of
`linear-regression-gluon.ipynb` are transcribed one by one.  Numeric
literals are carried as rationals (every literal in the notebook is a
decimal fraction). -/

/-- Python expressions, as used by the notebook's code cells. -/
inductive PyExpr
  | num (q : ℚ)
  | str (s : String)
  | bool (b : Bool)
  | name (n : String)
  | listLit (es : List PyExpr)
  | tuple (es : List PyExpr)
  | attr (e : PyExpr) (field : String)
  | index (e : PyExpr) (i : PyExpr)
  | call (f : PyExpr) (args : List PyExpr)
  | kw (k : String) (v : PyExpr)
  | star (e : PyExpr)
  | dict (entries : List PyExpr)
  | add (a b : PyExpr)
  | sub (a b : PyExpr)
  | strFmt (template : PyExpr) (a : PyExpr)

/-- A parameter of a Python function definition, possibly with a default. -/
inductive PyParam
  | p (n : String)
  | pOpt (n : String) (dflt : PyExpr)

/-- Python statements, as used by the notebook's code cells. -/
inductive PyStmt
  | pyImport (desc : String)
  | assign (target : String) (value : PyExpr)
  | assignTuple (targets : List String) (value : PyExpr)
  | exprStmt (e : PyExpr)
  | forIn (vars : List String) (iter : PyExpr) (body : List PyStmt)
  | whileLoop (cond : PyExpr) (body : List PyStmt)
  | ifElse (cond : PyExpr) (thn els : List PyStmt)
  | withCtx (mgr : PyExpr) (body : List PyStmt)
  | brk
  | funcDef (fname : String) (params : List PyParam) (body : List PyStmt)
  | ret (e : PyExpr)

/-- The first-minibatch preview loop of cell 5: it prints one batch and
breaks after the first iteration. -/
def previewLoop : PyStmt :=
  .forIn ["X", "y"] (.name "data_iter")
    [ .exprStmt (.call (.name "print") [.name "X", .name "y"])
    , .brk ]

/-- The inner minibatch loop of the training loop (cell 17). -/
def innerBatchLoop : PyStmt :=
  .forIn ["X", "y"] (.name "data_iter")
    [ .withCtx (.call (.attr (.name "autograd") "record") [])
        [ .assign "l"
            (.call (.name "loss") [.call (.name "net") [.name "X"], .name "y"]) ]
    , .exprStmt (.call (.attr (.name "l") "backward") [])
    , .exprStmt (.call (.attr (.name "trainer") "step") [.name "batch_size"]) ]

/-- The training loop of cell 17: `for epoch in range(1, num_epochs + 1)`. -/
def epochLoop : PyStmt :=
  .forIn ["epoch"]
    (.call (.name "range") [.num 1, .add (.name "num_epochs") (.num 1)])
    [ innerBatchLoop
    , .assign "l"
        (.call (.name "loss")
          [.call (.name "net") [.name "features"], .name "labels"])
    , .exprStmt (.call (.name "print")
        [.strFmt (.str "epoch %d, loss: %f")
          (.tuple [ .name "epoch"
                  , .call (.attr (.call (.attr (.name "l") "mean") []) "asnumpy")
                      [] ])]) ]

/-- The code cells of `linear-regression-gluon.ipynb`, transcribed statement
by statement in cell order. -/
def notebookStmts : List PyStmt :=
  [ -- cell 1
    .pyImport "d2l"
  , .pyImport "from mxnet: autograd, nd, gluon"
  , .assign "true_w"
      (.call (.attr (.name "nd") "array") [.listLit [.num 2, .num (-(17/5))]])
  , .assign "true_b" (.num (21/5))
  , .assignTuple ["features", "labels"]
      (.call (.attr (.name "d2l") "synthetic_data")
        [.name "true_w", .name "true_b", .num 1000])
    -- cell 3
  , .funcDef "load_array"
      [.p "data_arrays", .p "batch_size", .pOpt "is_train" (.bool true)]
      [ .assign "dataset"
          (.call (.attr (.attr (.name "gluon") "data") "ArrayDataset")
            [.star (.name "data_arrays")])
      , .ret (.call (.attr (.attr (.name "gluon") "data") "DataLoader")
          [.name "dataset", .name "batch_size", .kw "shuffle" (.name "is_train")]) ]
  , .assign "batch_size" (.num 10)
  , .assign "data_iter"
      (.call (.name "load_array")
        [.tuple [.name "features", .name "labels"], .name "batch_size"])
    -- cell 5
  , previewLoop
    -- cell 7
  , .pyImport "from mxnet.gluon: nn"
  , .assign "net" (.call (.attr (.name "nn") "Sequential") [])
    -- cell 9
  , .exprStmt (.call (.attr (.name "net") "add")
      [.call (.attr (.name "nn") "Dense") [.num 1]])
    -- cell 11
  , .pyImport "from mxnet: init"
  , .exprStmt (.call (.attr (.name "net") "initialize")
      [.call (.attr (.name "init") "Normal") [.kw "sigma" (.num (1/100))]])
    -- cell 13
  , .pyImport "from mxnet.gluon: loss as gloss"
  , .assign "loss" (.call (.attr (.name "gloss") "L2Loss") [])
    -- cell 15
  , .pyImport "from mxnet: gluon"
  , .assign "trainer"
      (.call (.attr (.name "gluon") "Trainer")
        [ .call (.attr (.name "net") "collect_params") []
        , .str "sgd"
        , .dict [.kw "learning_rate" (.num (3/100))] ])
    -- cell 17
  , .assign "num_epochs" (.num 3)
  , epochLoop
    -- cell 19
  , .assign "w"
      (.call (.attr (.attr (.index (.name "net") (.num 0)) "weight") "data") [])
  , .exprStmt (.call (.name "print")
      [ .str "Error in estimating w"
      , .sub (.call (.attr (.name "true_w") "reshape") [.attr (.name "w") "shape"])
          (.name "w") ])
  , .assign "b"
      (.call (.attr (.attr (.index (.name "net") (.num 0)) "bias") "data") [])
  , .exprStmt (.call (.name "print")
      [.str "Error in estimating b", .sub (.name "true_b") (.name "b")])
  ]

mutual

/-- All nodes of an expression, in prefix (program) order. -/
def exprNodes : PyExpr → List PyExpr
  | .num q => [.num q]
  | .str s => [.str s]
  | .bool b => [.bool b]
  | .name n => [.name n]
  | .listLit es => .listLit es :: exprNodesList es
  | .tuple es => .tuple es :: exprNodesList es
  | .attr e f => .attr e f :: exprNodes e
  | .index e i => .index e i :: (exprNodes e ++ exprNodes i)
  | .call f args => .call f args :: (exprNodes f ++ exprNodesList args)
  | .kw k v => .kw k v :: exprNodes v
  | .star e => .star e :: exprNodes e
  | .dict es => .dict es :: exprNodesList es
  | .add a b => .add a b :: (exprNodes a ++ exprNodes b)
  | .sub a b => .sub a b :: (exprNodes a ++ exprNodes b)
  | .strFmt t a => .strFmt t a :: (exprNodes t ++ exprNodes a)

def exprNodesList : List PyExpr → List PyExpr
  | [] => []
  | e :: es => exprNodes e ++ exprNodesList es

end

mutual

/-- All expression nodes a statement list evaluates, in execution order.  A
function definition statement evaluates nothing by itself (its body runs at
its call sites), so its body is not traversed. -/
def stmtExprs : PyStmt → List PyExpr
  | .pyImport _ => []
  | .assign _ v => exprNodes v
  | .assignTuple _ v => exprNodes v
  | .exprStmt e => exprNodes e
  | .forIn _ it body => exprNodes it ++ stmtExprsList body
  | .whileLoop c body => exprNodes c ++ stmtExprsList body
  | .ifElse c t e => exprNodes c ++ (stmtExprsList t ++ stmtExprsList e)
  | .withCtx m body => exprNodes m ++ stmtExprsList body
  | .brk => []
  | .funcDef _ _ _ => []
  | .ret e => exprNodes e

def stmtExprsList : List PyStmt → List PyExpr
  | [] => []
  | s :: ss => stmtExprs s ++ stmtExprsList ss

end

mutual

/-- The loop and branch statements of a statement list, in program order,
descending into every body (including function definition bodies, which can
syntactically hold loops of the notebook's own). -/
def controlFlowOfStmt : PyStmt → List PyStmt
  | .forIn v it b => .forIn v it b :: controlFlowOfStmts b
  | .whileLoop c b => .whileLoop c b :: controlFlowOfStmts b
  | .ifElse c t e => .ifElse c t e :: (controlFlowOfStmts t ++ controlFlowOfStmts e)
  | .withCtx _ b => controlFlowOfStmts b
  | .funcDef _ _ b => controlFlowOfStmts b
  | _ => []

def controlFlowOfStmts : List PyStmt → List PyStmt
  | [] => []
  | s :: ss => controlFlowOfStmt s ++ controlFlowOfStmts ss

end

mutual

/-- The right-hand sides of all assignments to a given variable, in program
order, descending into every body. -/
def assignsOfStmt (x : String) : PyStmt → List PyExpr
  | .assign t v => if t = x then [v] else []
  | .forIn _ _ b => assignsOfStmts x b
  | .whileLoop _ b => assignsOfStmts x b
  | .ifElse _ t e => assignsOfStmts x t ++ assignsOfStmts x e
  | .withCtx _ b => assignsOfStmts x b
  | .funcDef _ _ b => assignsOfStmts x b
  | _ => []

def assignsOfStmts (x : String) : List PyStmt → List PyExpr
  | [] => []
  | s :: ss => assignsOfStmt x s ++ assignsOfStmts x ss

end

/-- The categories of library calls the specification names. -/
inductive APICall
  | loaderConstruction
  | sequentialConstruction
  | layerAddition
  | paramInit
  | lossSelection
  | trainerConstruction
  | trainStep
  | paramInspection
deriving DecidableEq, Repr

/-- Classify a callee expression into one of the named API categories: the
`load_array` helper builds the dataset and loader, `nn.Sequential` the
container, `net.add` adds the layer, `net.initialize` initializes the
parameters, `gloss.L2Loss` selects the loss, `gluon.Trainer` builds the
trainer, `trainer.step` steps the training loop, and reading
`net[0].weight.data` or `net[0].bias.data` inspects the parameters. -/
def classifyCallee : PyExpr → Option APICall
  | .name "load_array" => some .loaderConstruction
  | .attr (.name "nn") "Sequential" => some .sequentialConstruction
  | .attr (.name "net") "add" => some .layerAddition
  | .attr (.name "net") "initialize" => some .paramInit
  | .attr (.name "gloss") "L2Loss" => some .lossSelection
  | .attr (.name "gluon") "Trainer" => some .trainerConstruction
  | .attr (.name "trainer") "step" => some .trainStep
  | .attr (.attr (.index (.name "net") _) "weight") "data" => some .paramInspection
  | .attr (.attr (.index (.name "net") _) "bias") "data" => some .paramInspection
  | _ => none

/-- The categorized API events of a statement list, in execution order. -/
def apiEvents (stmts : List PyStmt) : List APICall :=
  (stmtExprsList stmts).filterMap fun e =>
    match e with
    | .call f _ => classifyCallee f
    | _ => none

/-- Collapse consecutive duplicates of a list. -/
def collapseDups : List APICall → List APICall
  | [] => []
  | [a] => [a]
  | a :: b :: rest =>
      if a = b then collapseDups (b :: rest) else a :: collapseDups (b :: rest)

/-- The values bound to a given keyword, over every keyword argument and
dictionary entry evaluated by a statement list. -/
def kwEntries (stmts : List PyStmt) (k : String) : List PyExpr :=
  (stmtExprsList stmts).filterMap fun e =>
    match e with
    | .kw k2 v => if k2 = k then some v else none
    | _ => none

/-- The argument lists of the calls to a named function. -/
def callsToFun (stmts : List PyStmt) (f : String) : List (List PyExpr) :=
  (stmtExprsList stmts).filterMap fun e =>
    match e with
    | .call (.name g) args => if g = f then some args else none
    | _ => none

/-- The argument lists of the method calls `o.m(...)` on a named object. -/
def methodCallArgs (stmts : List PyStmt) (o m : String) : List (List PyExpr) :=
  (stmtExprsList stmts).filterMap fun e =>
    match e with
    | .call (.attr (.name ob) mt) args =>
        if ob = o ∧ mt = m then some args else none
    | _ => none

/-! ### The notebook's `load_array` helper, as a function

Cell 3 defines

```
def load_array(data_arrays, batch_size, is_train=True):
    dataset = gluon.data.ArrayDataset(*data_arrays)
    return gluon.data.DataLoader(dataset, batch_size, shuffle=is_train)
```

which is embedded directly below.  The gluon classes are represented by
records carrying exactly what the notebook hands them. -/

/-- A dataset built from a feature array and a label array. -/
structure ArrayDataset (α β : Type) where
  features : List α
  labels : List β

/-- A data loader: the dataset, the batch size, and the shuffle flag. -/
structure DataLoader (α β : Type) where
  dataset : ArrayDataset α β
  batch_size : ℕ
  shuffle : Bool

/-- The default of `load_array`'s `is_train` parameter (`is_train=True` in
the Python signature); the notebook's call site `load_array((features,
labels), batch_size)` leaves the parameter at this default. -/
def load_array_is_train_default : Bool := true

/-- `load_array`: build an `ArrayDataset` from the array pair and wrap it in
a `DataLoader` with `shuffle=is_train`. -/
def load_array {α β : Type} (data_arrays : List α × List β) (batch_size : ℕ)
    (is_train : Bool) : DataLoader α β :=
  let dataset : ArrayDataset α β := ⟨data_arrays.1, data_arrays.2⟩
  { dataset := dataset, batch_size := batch_size, shuffle := is_train }

/-- Modelled from the spec: the gluon `DataLoader` implementation is not
part of this repository; the notebook's prose (cell 2) states that the
Boolean `shuffle` indicates whether the loader shuffles the data on each
epoch.  Accordingly, the index order an epoch visits is the epoch's
permutation when `shuffle` is set and the identity order otherwise. -/
def DataLoader.epochOrder {α β : Type} (dl : DataLoader α β)
    (perm : List ℕ) : List ℕ :=
  if dl.shuffle then perm else List.range dl.dataset.features.length

/-! ## Theorems -/

theorem runScript_trace (w : World) (h : w.initCwd ∈ w.dirs) :
    (runScript w).trace = expectedTrace w := by
  simp +decide [runScript, runStmts, runStmt, runCmd, runSubst, resolveWord,
    initState, new_manual_update, gitLine, expectedTrace, expectedGitArgs,
    gitPath, h]

theorem runScript_env (w : World) (h : w.initCwd ∈ w.dirs) :
    (runScript w).env "temp_path" = w.initCwd ∧
      (runScript w).env "temp_date" = w.dateAt 0 := by
  simp +decide [runScript, runStmts, runStmt, runCmd, runSubst, resolveWord,
    initState, new_manual_update, gitLine, gitPath, h]

/-- C1: on every run (from a starting directory that exists), the script
issues exactly the fixed git subcommand sequence: branch create, checkout of
the new branch, add, commit with a timestamp-derived message, checkout of
master, merge, push, branch delete, in this order. -/
theorem C1_git_command_sequence (w : World) (h : w.initCwd ∈ w.dirs) :
    (gitInvocations w).map (fun i => i.args) = expectedGitArgs (w.dateAt 0) := by
  simp +decide [gitInvocations, runScript_trace w h, expectedTrace,
    expectedGitArgs, gitPath]

theorem C1_witness :
    sampleWorld.initCwd ∈ sampleWorld.dirs ∧
      (gitInvocations sampleWorld).map (fun i => i.args) =
        expectedGitArgs (sampleWorld.dateAt 0) :=
  ⟨by decide, C1_git_command_sequence sampleWorld (by decide)⟩

/-- C2: no step's exit status is checked: for every pattern of git failures
(the exit oracle `ok`, e.g. every command failing), the script still issues
the same git invocations, and all eight steps run. -/
theorem C2_failures_unchecked_all_steps_run (w : World) (ok : Nat → Bool)
    (h : w.initCwd ∈ w.dirs) :
    gitInvocations { w with gitOk := ok } = gitInvocations w ∧
      (gitInvocations w).length = 8 := by
  constructor
  · have h1 := runScript_trace { w with gitOk := ok } h
    have h2 := runScript_trace w h
    simp [gitInvocations, h1, h2, expectedTrace]
  · simp +decide [gitInvocations, runScript_trace w h, expectedTrace,
      expectedGitArgs, gitPath]

theorem C2_witness :
    sampleWorld.initCwd ∈ sampleWorld.dirs ∧
      (gitInvocations { sampleWorld with gitOk := fun _ => true } =
          gitInvocations sampleWorld ∧
        (gitInvocations sampleWorld).length = 8) :=
  ⟨by decide,
    C2_failures_unchecked_all_steps_run sampleWorld (fun _ => true) (by decide)⟩

/-- C3: the script is a straight line: the external invocation trace is the
same no matter what any git command's outcome is, and after the two initial
assignments no statement records a value (every later statement is a plain
command chain, not an assignment). -/
theorem C3_linear_control_and_no_state (w : World) (ok : Nat → Bool)
    (h : w.initCwd ∈ w.dirs) :
    (runScript { w with gitOk := ok }).trace = (runScript w).trace ∧
      (new_manual_update.drop 2).all (fun s => !s.isAssign) = true := by
  refine ⟨?_, by decide⟩
  rw [runScript_trace { w with gitOk := ok } h, runScript_trace w h]
  simp [expectedTrace]

theorem C3_witness :
    sampleWorld.initCwd ∈ sampleWorld.dirs ∧
      ((runScript { sampleWorld with gitOk := fun _ => true }).trace =
          (runScript sampleWorld).trace ∧
        (new_manual_update.drop 2).all (fun s => !s.isAssign) = true) :=
  ⟨by decide,
    C3_linear_control_and_no_state sampleWorld (fun _ => true) (by decide)⟩

/-- C5 counterexample: the script does invoke an external program other
than the version-control binary, namely `date` (run once at startup to
build the commit message), so the claim that git is the only external
program invoked is false. -/
theorem C5_counterexample_date_invoked :
    "date" ∈ invokedPrograms sampleWorld ∧ "date" ≠ gitPath := by decide

/-- C5 amended: on every run the external programs invoked are exactly one
`date` call followed by eight invocations of the version-control binary
`/usr/bin/git`; `pwd` and `cd` are shell builtins, so beyond the
version-control executable the script's only external dependency is the
standard `date` utility. -/
theorem C5_external_programs_amended (w : World) (h : w.initCwd ∈ w.dirs) :
    invokedPrograms w = "date" :: List.replicate 8 gitPath := by
  simp +decide [invokedPrograms, runScript_trace w h, expectedTrace,
    expectedGitArgs, List.replicate]

theorem C5_witness :
    sampleWorld.initCwd ∈ sampleWorld.dirs ∧
      invokedPrograms sampleWorld = "date" :: List.replicate 8 gitPath :=
  ⟨by decide, C5_external_programs_amended sampleWorld (by decide)⟩

/-- C8: the path is captured once from `pwd` at the start into `temp_path`,
and every git invocation runs in that directory: no step changes the
directory seen by a later step. -/
theorem C8_git_cwd_fixed (w : World) (h : w.initCwd ∈ w.dirs) :
    (runScript w).env "temp_path" = w.initCwd ∧
      ∀ inv ∈ gitInvocations w, inv.cwd = w.initCwd := by
  refine ⟨(runScript_env w h).1, ?_⟩
  simp +decide [gitInvocations, runScript_trace w h, expectedTrace,
    expectedGitArgs, gitPath]

theorem C8_witness :
    sampleWorld.initCwd ∈ sampleWorld.dirs ∧
      ((runScript sampleWorld).env "temp_path" = sampleWorld.initCwd ∧
        ∀ inv ∈ gitInvocations sampleWorld, inv.cwd = sampleWorld.initCwd) :=
  ⟨by decide, C8_git_cwd_fixed sampleWorld (by decide)⟩

/-- C9: the only commit message of a run is the fixed string "code on "
followed by the timestamp captured at step 0 (script start, not the time
the commit step runs), and `date` is invoked exactly once, so the message
is identical across all uses within a run. -/
theorem C9_commit_message_start_time (w : World) (h : w.initCwd ∈ w.dirs) :
    commitMessages w = ["code on " ++ w.dateAt 0] ∧
      (invokedPrograms w).count "date" = 1 := by
  constructor
  · simp +decide [commitMessages, runScript_trace w h, expectedTrace,
      expectedGitArgs, gitPath]
  · simp +decide [invokedPrograms, runScript_trace w h, expectedTrace,
      expectedGitArgs, gitPath]

theorem C9_witness :
    sampleWorld.initCwd ∈ sampleWorld.dirs ∧
      (commitMessages sampleWorld = ["code on " ++ sampleWorld.dateAt 0] ∧
        (invokedPrograms sampleWorld).count "date" = 1) :=
  ⟨by decide, C9_commit_message_start_time sampleWorld (by decide)⟩

/-! ## Notebook claims -/

/-- C4 counterexample: the notebook's loop/branch statements are not just
the training loop's: besides the 3-epoch training loop (and its inner
minibatch loop) there is the first-minibatch preview loop of cell 5, so the
claim that the notebook contains no loop other than the training loop is
false. -/
theorem C4_counterexample_extra_loops :
    controlFlowOfStmts notebookStmts ≠ controlFlowOfStmt epochLoop := by
  intro hEq
  have h3 : (controlFlowOfStmts notebookStmts).length = 3 := rfl
  have h2 : (controlFlowOfStmt epochLoop).length = 2 := rfl
  rw [hEq] at h3
  exact absurd (h3.symm.trans h2) (by decide)

/-- C4 amended: the notebook's custom control flow consists of exactly
three for-loops and no other loop, branch, or conditional: the
first-minibatch preview loop over `data_iter` (which breaks after one
iteration), the training loop over `range(1, num_epochs + 1)` whose count
`num_epochs` is the literal 3, and, inside it, the minibatch loop over
`data_iter`. -/
theorem C4_control_flow_amended :
    controlFlowOfStmts notebookStmts = [previewLoop, epochLoop, innerBatchLoop] ∧
      assignsOfStmts "num_epochs" notebookStmts = [.num 3] :=
  ⟨rfl, rfl⟩

/-- C6: the notebook performs the categorized library calls in exactly the
claimed fixed order: loader construction, sequential model construction,
layer addition, parameter initialization, loss selection, trainer
construction, training-loop stepping, and finally parameter inspection. -/
theorem C6_api_call_order :
    collapseDups (apiEvents notebookStmts) =
      [ .loaderConstruction, .sequentialConstruction, .layerAddition,
        .paramInit, .lossSelection, .trainerConstruction, .trainStep,
        .paramInspection ] :=
  rfl

/-- C7: each configuration value the notebook hands the library is a
literal constant of the notebook: `batch_size` is assigned exactly once,
the literal 10, and is what both `load_array` and `trainer.step` receive;
`num_epochs` is assigned exactly once, the literal 3; the initializer
standard deviation is the literal 0.01; the learning rate is the literal
0.03. -/
theorem C7_literal_config_values :
    assignsOfStmts "batch_size" notebookStmts = [.num 10] ∧
      assignsOfStmts "num_epochs" notebookStmts = [.num 3] ∧
      kwEntries notebookStmts "sigma" = [.num (1/100)] ∧
      kwEntries notebookStmts "learning_rate" = [.num (3/100)] ∧
      callsToFun notebookStmts "load_array" =
        [[.tuple [.name "features", .name "labels"], .name "batch_size"]] ∧
      methodCallArgs notebookStmts "trainer" "step" = [[.name "batch_size"]] :=
  ⟨rfl, rfl, rfl, rfl, rfl, rfl⟩

/-- C10: the loader `load_array` constructs carries `shuffle = is_train`;
the parameter's default is `True`, so the training iterator built with the
default shuffles each epoch (its epoch order is the epoch's permutation),
while a loader built with `is_train=False` never shuffles (its epoch order
is always the identity order). -/
theorem C10_load_array_shuffle {α β : Type} (fb : List α × List β) (bs : ℕ)
    (t : Bool) (perm : List ℕ) :
    (load_array fb bs t).shuffle = t ∧
      load_array_is_train_default = true ∧
      (load_array fb bs load_array_is_train_default).shuffle = true ∧
      (load_array fb bs load_array_is_train_default).epochOrder perm = perm ∧
      (load_array fb bs false).epochOrder perm = List.range fb.1.length := by
  simp [load_array, load_array_is_train_default, DataLoader.epochOrder]
